import Mathlib

/-!
Verification of the Azure-AD-to-DSS user synchronisation macro
(`python-runnables/graph-macro/runnable.py`).

The embedding translates the pure, decision-making core of `MyRunnable`
into executable Lean definitions:

* `possible_licenses`, `get_license`   — the license resolver;
* `get_user_id`                        — login derivation from an email
  (Python `str.replace` with a one-character pattern substitutes each
  occurrence character-wise, so it is modelled as a map over the string's
  character list);
* `list_diff`                          — `list(set(l1) - set(l2))`; Python's
  set iteration order is unspecified, the embedding fixes one order; the
  program only ever uses emptiness and membership of the result;
* `query_group`, `query_members`, `phase2Step`, `phase2` — the per-group
  Graph queries of phase 2, with the HTTP layer abstracted into a
  `GraphApi` oracle delivering either a typed answer or an error string
  (the spec treats pagination and HTTP as external collaborators);
* `aggregate`                          — phase 3; pandas raises
  `KeyError('login')` when `sort_values` is applied to the empty,
  column-less member frame, which happens exactly when no group
  contributed any member row, hence the explicit error branch;
* `user_create`, `user_update`, `user_delete` — the account mutators with
  their simulate branches; the DSS client is modelled as a roster of
  `DssUser` records, unique by login (DSS guarantees login uniqueness);
* `decideUser`                         — the reconciliation decision taken
  by the phase-4 loop body for one outer-join row, with the
  license-`NONE` guard that lives inside `user_create` folded in as
  `Decision.skipCreate`;
* `processComparisonRow`, `phase4`, `runPhases`, `run` — the phase-4 loop
  and the top-level `run` method with its `try`/`except`/`finally`
  structure.

Log messages are f-strings in the source; they are modelled by the
structured `Msg` type carrying the interpolated data, so that log content
can be compared without string formatting.  Timestamps
(`datetime.datetime.now()`) and the constant acting user are
nondeterministic respectively constant and are omitted from `LogEntry`.
-/

/-- License types, ordered from most to least potent (source line 26). -/
def possible_licenses : List String :=
  ["DATA_SCIENTIST", "DATA_ANALYST", "READER", "EXPLORER", "NONE"]

/-- `MyRunnable.get_license` (lines 104-116): walk `possible_licenses`
from most to least potent and return the first one present in the input;
default to `"NONE"`. -/
def get_license (license_list : List String) : String :=
  match possible_licenses.find? (fun t => decide (t ∈ license_list)) with
  | some t => t
  | none => "NONE"

/-- `MyRunnable.get_user_id` (lines 90-97): `email.replace("@", "_")`.
The pattern is a single character, so the replacement acts character-wise
on the string's character list. -/
def get_user_id (email : String) : String :=
  String.mk (email.data.map (fun c => if c = '@' then '_' else c))

/-- `MyRunnable.list_diff` (lines 99-102): `list(set(list1) - set(list2))`.
Set iteration order is unspecified in Python; the embedding keeps the
first-occurrence order.  The program only uses emptiness and membership
of the result. -/
def list_diff (list1 list2 : List String) : List String :=
  (list1.filter (fun x => decide (x ∉ list2))).dedup

/-- One row of the groups configuration dataset
(columns `dss_name`, `aad_name`, `license`; lines 140, 456, 491). -/
structure GroupRow where
  dss_name : String
  aad_name : String
  license : String
deriving DecidableEq, Repr

/-- One row of the member frame produced by `query_members`
(columns `displayName`, `email`, `groups`, `login`; lines 327-334). -/
structure MemberRow where
  displayName : String
  email : String
  groups : String
  login : String
deriving DecidableEq, Repr

/-- One raw Graph member (after the meaningless first column is dropped
and the columns renamed, lines 326-330). -/
structure RawMember where
  displayName : String
  email : String
deriving DecidableEq, Repr

/-- One aggregated AAD user (one row of `aad_users`, lines 494-502):
the unique directory-side group set and license set per
(login, displayName, email) key. -/
structure AadUser where
  login : String
  displayName : String
  email : String
  groups : List String
  licenses : List String
deriving DecidableEq, Repr

/-- One DSS account as listed by `client.list_users()` (lines 441-451). -/
structure DssUser where
  login : String
  displayName : String
  email : String
  groups : List String
  sourceType : String
  userProfile : String
deriving DecidableEq, Repr

/-- The local account roster held by the DSS client.  Logins are unique
in DSS; the embedding relies on that only through `List.find?`. -/
structure DssState where
  users : List DssUser
deriving DecidableEq, Repr

/-- Structured rendering of the f-string log messages of the source. -/
inductive Msg where
  | noGraphReturn (group : String)
  | graphGroupError (group : String) (err : String)
  | membersError (group : String) (err : String)
  | createSkippedNoLicense (user : String)
  | createSimulated (user : String) (groups : List String)
  | created (user : String) (groups : List String)
  | updateSimulated (user : String) (groups : List String) (lic : String)
  | updated (user : String) (groups : List String) (lic : String)
  | deleteSimulated (user : String) (reason : String)
  | deleted (user : String) (reason : String)
  | unexpectedUserType (user : String) (sourceType : String)
  | runError (err : String)
deriving DecidableEq, Repr

/-- One record of the log dataframe (lines 196-210); the timestamp and
the constant acting user are omitted (see the module comment). -/
structure LogEntry where
  severity : String
  message : Msg
deriving DecidableEq, Repr

/-- `MyRunnable.add_log` (lines 196-210): append one record. -/
def add_log (log : List LogEntry) (message : Msg) (log_type : String := "INFO") :
    List LogEntry :=
  log ++ [⟨log_type, message⟩]

/-- `MyRunnable.create_resulttable` (lines 227-237): one record per log
row, in order. -/
def create_resulttable (log_df : List LogEntry) : List (String × Msg) :=
  log_df.map (fun e => (e.severity, e.message))

/-- The directory service, abstracted per the spec into an oracle that
answers the group-search query (the list of matching group ids) and the
fully paginated member listing, either of which may fail with an error
message (HTTP/network/JSON failures). -/
structure GraphApi where
  groupLookup : String → Except String (List String)
  memberList : String → Except String (List RawMember)

/-- `MyRunnable.query_group` (lines 277-301): first match's id, or `none`
with a WARNING for zero matches or any error. -/
def query_group (api : GraphApi) (log : List LogEntry) (group_name_aad : String) :
    Option String × List LogEntry :=
  match api.groupLookup group_name_aad with
  | .ok (gid :: _) => (some gid, log)
  | .ok [] => (none, add_log log (.noGraphReturn group_name_aad) "WARNING")
  | .error e => (none, add_log log (.graphGroupError group_name_aad e) "WARNING")

/-- `MyRunnable.query_members` (lines 303-341): build the member frame
for one group, or `none` with a WARNING on any error.  When the member
list is empty the column renaming (`group_members.columns = [...]`,
line 330) raises a length-mismatch `ValueError` on the empty column-less
frame, which the same `except` turns into the WARNING; hence the
`isEmpty` branch. -/
def query_members (api : GraphApi) (log : List LogEntry) (group_id : String)
    (group_name_dss : String) : Option (List MemberRow) × List LogEntry :=
  match api.memberList group_id with
  | .error e => (none, add_log log (.membersError group_name_dss e) "WARNING")
  | .ok ms =>
    if ms.isEmpty then
      (none, add_log log (.membersError group_name_dss "Length mismatch") "WARNING")
    else
      (some (ms.map (fun m =>
        { displayName := m.displayName, email := m.email,
          groups := group_name_dss, login := get_user_id m.email })), log)

/-- The body of the phase-2 loop (lines 475-485) for one mapping row:
look the group up, fetch its members, and append them; a row whose
lookup or member query failed contributes nothing. -/
def phase2Step (api : GraphApi) (acc : List MemberRow × List LogEntry)
    (row : GroupRow) : List MemberRow × List LogEntry :=
  match query_group api acc.2 row.aad_name with
  | (none, log1) => (acc.1, log1)
  | (some gid, log1) =>
    match query_members api log1 gid row.dss_name with
    | (none, log2) => (acc.1, log2)
    | (some ms, log2) => (acc.1 ++ ms, log2)

/-- Phase 2 (lines 470-486): fold the loop body over the mapping rows. -/
def phase2 (api : GraphApi) (rows : List GroupRow)
    (acc : List MemberRow × List LogEntry) : List MemberRow × List LogEntry :=
  rows.foldl (phase2Step api) acc

/-- Phase 3 (lines 491-502): join the member rows with the license
lookup, group by (login, displayName, email) and collect the unique
group and license sets.  When no group contributed any member, the
member frame has no columns and `sort_values(by=["login", "groups"])`
raises `KeyError('login')` (rendered by `str` as the quoted key), which
the embedding reports as an error.  pandas sorts rows by login; row
order carries no meaning downstream, so the embedding keeps
first-occurrence order of the grouping keys. -/
def aggregate (mapping : List GroupRow) (members : List MemberRow) :
    Except String (List AadUser) :=
  if members.isEmpty then
    .error "KeyError: login"
  else
    let joined := members.filterMap (fun m =>
      (mapping.find? (fun g => g.dss_name == m.groups)).map (fun g => (m, g.license)))
    let keys := (joined.map (fun p => (p.1.login, p.1.displayName, p.1.email))).dedup
    .ok (keys.map (fun k =>
      let mine := joined.filter (fun p =>
        p.1.login == k.1 && p.1.displayName == k.2.1 && p.1.email == k.2.2)
      { login := k.1, displayName := k.2.1, email := k.2.2,
        groups := (mine.map (fun p => p.1.groups)).dedup,
        licenses := (mine.map (fun p => p.2)).dedup }))

/-- `MyRunnable.user_create` (lines 347-380).  A user without a license
is skipped with an INFO entry; in simulate mode only an INFO entry is
produced; otherwise the account is created with the owned source type
`LOCAL_NO_AUTH` and its email is set (the two-step creation of the
source collapses to one record here). -/
def user_create (simulate : Bool) (st : DssState) (log : List LogEntry)
    (user_id display_name email : String) (groups : List String)
    (user_license : String) : DssState × List LogEntry :=
  if user_license = "NONE" then
    (st, add_log log (.createSkippedNoLicense user_id))
  else if simulate then
    (st, add_log log (.createSimulated user_id groups))
  else
    let newUser : DssUser :=
      { login := user_id, displayName := display_name, email := email,
        groups := groups, sourceType := "LOCAL_NO_AUTH",
        userProfile := user_license }
    ({ users := st.users ++ [newUser] }, add_log log (.created user_id groups))

/-- `MyRunnable.user_update` (lines 382-404).  In simulate mode only an
INFO entry; otherwise the account definition is fetched and only its
`groups` and `userProfile` fields are overwritten before persisting. -/
def user_update (simulate : Bool) (st : DssState) (log : List LogEntry)
    (user_id : String) (groups : List String) (user_license : String) :
    DssState × List LogEntry :=
  if simulate then
    (st, add_log log (.updateSimulated user_id groups user_license))
  else
    ({ users := st.users.map (fun u =>
        if u.login = user_id then
          { u with groups := groups, userProfile := user_license }
        else u) },
     add_log log (.updated user_id groups user_license))

/-- `MyRunnable.user_delete` (lines 406-418). -/
def user_delete (simulate : Bool) (st : DssState) (log : List LogEntry)
    (user_id : String) (reason : String) : DssState × List LogEntry :=
  if simulate then
    (st, add_log log (.deleteSimulated user_id reason))
  else
    ({ users := st.users.filter (fun u => u.login != user_id) },
     add_log log (.deleted user_id reason))

/-- The effective group list computed in the both-sides branch
(lines 566-568): the directory-side groups plus the intersection of the
user's current DSS groups with the local-only groups. -/
def effective_groups (a : AadUser) (u : DssUser) (local_groups : List String) :
    List String :=
  a.groups ++ (u.groups.filter (fun g => decide (g ∈ local_groups))).dedup

/-- The per-user reconciliation decision of the spec's data model. -/
inductive Decision where
  | create (login displayName email : String) (groups : List String) (lic : String)
  | update (login : String) (groups : List String) (lic : String)
  | delete (login : String) (reason : String)
  | warn (login : String)
  | skipCreate (login : String)
  | noop
deriving DecidableEq, Repr

/-- Decisions that mutate the local roster. -/
def isMutation : Decision → Bool
  | .create _ _ _ _ _ => true
  | .update _ _ _ => true
  | .delete _ _ => true
  | _ => false

/-- The decision taken by the phase-4 loop body (lines 524-576) for one
outer-join row, as a pure function of the row and the local-only group
set.  The license-`NONE` guard of `user_create` (line 353) is folded in
as `skipCreate`; for a right-only row the license column is `NaN`,
replaced by `[]` (lines 519-522), and never used. -/
def decideUser (aad : Option AadUser) (dss : Option DssUser)
    (local_groups : List String) : Decision :=
  match aad, dss with
  | none, none => .noop
  | some a, none =>
    if get_license a.licenses = "NONE" then .skipCreate a.login
    else .create a.login a.displayName a.email a.groups (get_license a.licenses)
  | none, some u =>
    if u.sourceType = "LOCAL_NO_AUTH" then .delete u.login "Not found in AAD."
    else .noop
  | some a, some u =>
    if u.sourceType ≠ "LOCAL_NO_AUTH" then .warn u.login
    else if get_license a.licenses = "NONE" then .delete u.login "No license."
    else if list_diff (effective_groups a u local_groups) u.groups ≠ [] ∨
        get_license a.licenses ≠ u.userProfile then
      .update u.login (effective_groups a u local_groups) (get_license a.licenses)
    else .noop

/-- The effect of one non-simulate decision on the affected user's own
account, mirroring the non-simulate branches of the three mutators:
`create` provisions an owned account with the given fields, `update`
overwrites groups and profile, `delete` removes the account. -/
def applyToUser (d : Decision) (u : Option DssUser) : Option DssUser :=
  match d, u with
  | .create login dn em gs lic, _ =>
    some { login := login, displayName := dn, email := em, groups := gs,
           sourceType := "LOCAL_NO_AUTH", userProfile := lic }
  | .update _ gs lic, some u0 => some { u0 with groups := gs, userProfile := lic }
  | .update _ _ _, none => none
  | .delete _ _, _ => none
  | _, u0 => u0

/-- Whether a DSS user matches an aggregated AAD user on the outer-join
key (login, displayName, email) of line 513. -/
def keyMatches (a : AadUser) (u : DssUser) : Bool :=
  u.login == a.login && u.displayName == a.displayName && u.email == a.email

/-- The rows of the outer-join comparison table of lines 510-516: every
AAD row with its matching DSS row when one exists, followed by the
unmatched DSS rows. -/
def comparisonRows (aad_users : List AadUser) (dss_users : List DssUser) :
    List (Option AadUser × Option DssUser) :=
  aad_users.map (fun a => (some a, dss_users.find? (fun u => keyMatches a u)))
    ++ (dss_users.filter (fun u => !(aad_users.any (fun a => keyMatches a u)))).map
        (fun u => ((none : Option AadUser), some u))

/-- The body of the phase-4 loop (lines 524-576) for one comparison row:
the branch structure of the source, calling the three mutators. -/
def processComparisonRow (simulate : Bool) (local_groups : List String)
    (acc : DssState × List LogEntry) (row : Option AadUser × Option DssUser) :
    DssState × List LogEntry :=
  match row with
  | (none, none) => acc
  | (some a, none) =>
    user_create simulate acc.1 acc.2 a.login a.displayName a.email a.groups
      (get_license a.licenses)
  | (none, some u) =>
    if u.sourceType = "LOCAL_NO_AUTH" then
      user_delete simulate acc.1 acc.2 u.login "Not found in AAD."
    else acc
  | (some a, some u) =>
    if u.sourceType ≠ "LOCAL_NO_AUTH" then
      (acc.1, add_log acc.2 (.unexpectedUserType u.login u.sourceType) "WARNING")
    else if get_license a.licenses = "NONE" then
      user_delete simulate acc.1 acc.2 u.login "No license."
    else if list_diff (effective_groups a u local_groups) u.groups ≠ [] ∨
        get_license a.licenses ≠ u.userProfile then
      user_update simulate acc.1 acc.2 u.login (effective_groups a u local_groups)
        (get_license a.licenses)
    else acc

/-- Phase 4 (lines 509-576): iterate the loop body over the comparison
table.  Decisions are computed from the snapshot taken at the start of
the run; mutations are applied to the live roster. -/
def phase4 (simulate : Bool) (local_groups : List String)
    (aad_users : List AadUser) (dss_users : List DssUser)
    (st : DssState) (log : List LogEntry) : DssState × List LogEntry :=
  (comparisonRows aad_users dss_users).foldl (processComparisonRow simulate local_groups)
    (st, log)

/-- `MyRunnable.validate_groups_df` (lines 138-157), license part: the
unique license values must all be possible licenses.  The column-name
check does not arise in the typed embedding (a `GroupRow` has exactly
the three columns). -/
def validate_groups_df (groups_df : List GroupRow) : Except String Unit :=
  let license_values := (groups_df.map (fun g => g.license)).dedup
  let impossible_licenses := list_diff license_values possible_licenses
  if impossible_licenses.isEmpty then .ok ()
  else .error "Invalid license types were found in the groups configuration"

/-- The inputs of one run: the groups configuration, the DSS roster and
group-name snapshot, the directory oracle, the outcome of
`set_session_headers` (the adal authentication), and the simulate flag. -/
structure RunEnv where
  groups_df : List GroupRow
  dss_users : List DssUser
  dss_groups : List String
  api : GraphApi
  auth : Except String Unit
  flag_simulate : Bool

/-- The `try` block of `MyRunnable.run` (lines 431-577): the four phases
in order.  A raised exception carries the failure message, the roster
and the log at the point of failure. -/
def runPhases (env : RunEnv) : Except (String × DssState × List LogEntry) (DssState × List LogEntry) :=
  let log : List LogEntry := []
  let st : DssState := ⟨env.dss_users⟩
  match validate_groups_df env.groups_df with
  | .error e => .error (e, st, log)
  | .ok () =>
    let groups_from_input := env.groups_df.map (fun g => g.dss_name)
    let local_groups := list_diff env.dss_groups groups_from_input
    let missing_groups := list_diff groups_from_input env.dss_groups
    if !missing_groups.isEmpty then
      .error ("Groups are missing from DSS", st, log)
    else
      match env.auth with
      | .error e => .error (e, st, log)
      | .ok () =>
        match phase2 env.api env.groups_df ([], log) with
        | (members, log) =>
          match aggregate env.groups_df members with
          | .error e => .error (e, st, log)
          | .ok aad_users =>
            .ok (phase4 env.flag_simulate local_groups aad_users env.dss_users st log)

/-- `MyRunnable.run` (lines 424-583): the top-level handler catches any
exception from the phases, appends it to the log as an ERROR entry, and
the `finally` block returns the result table built from the log either
way.  (`save_log`, the optional export of the same log to a dataset, is
external persistence and out of scope per the spec.) -/
def run (env : RunEnv) : List (String × Msg) :=
  match runPhases env with
  | .ok (_, log) => create_resulttable log
  | .error (e, _, log) => create_resulttable (add_log log (.runError e) "ERROR")

/-- The roster after a run (`ok` leg) or at the point of failure
(`error` leg). -/
def runFinalState (env : RunEnv) : DssState :=
  match runPhases env with
  | .ok (st, _) => st
  | .error (_, st, _) => st

/-! ### Helper lemmas about the list primitives -/

lemma mem_list_diff {l1 l2 : List String} {x : String} :
    x ∈ list_diff l1 l2 ↔ x ∈ l1 ∧ x ∉ l2 := by
  simp [list_diff, List.mem_dedup, List.mem_filter]

lemma list_diff_eq_nil_iff {l1 l2 : List String} :
    list_diff l1 l2 = [] ↔ ∀ x ∈ l1, x ∈ l2 := by
  constructor
  · intro h x hx
    by_contra hn
    have hmem : x ∈ list_diff l1 l2 := mem_list_diff.mpr ⟨hx, hn⟩
    rw [h] at hmem
    exact absurd hmem (List.not_mem_nil x)
  · intro h
    apply List.eq_nil_iff_forall_not_mem.mpr
    intro x hx
    obtain ⟨h1, h2⟩ := mem_list_diff.mp hx
    exact h2 (h x h1)

lemma list_diff_ne_nil_iff {l1 l2 : List String} :
    list_diff l1 l2 ≠ [] ↔ ∃ x ∈ l1, x ∉ l2 := by
  rw [ne_eq, list_diff_eq_nil_iff]
  push_neg
  rfl

lemma mem_effective_groups {a : AadUser} {u : DssUser} {lg : List String} {x : String} :
    x ∈ effective_groups a u lg ↔ x ∈ a.groups ∨ (x ∈ u.groups ∧ x ∈ lg) := by
  simp [effective_groups, List.mem_append, List.mem_dedup, List.mem_filter]

lemma find?_indexOf_le {p : String → Bool} :
    ∀ (P : List String) (r : String), P.find? p = some r →
      ∀ x ∈ P, p x = true → P.indexOf r ≤ P.indexOf x := by
  intro P
  induction P with
  | nil => intro r h; simp at h
  | cons a as ih =>
    intro r h x hx hpx
    by_cases hpa : p a = true
    · rw [List.find?_cons_of_pos _ hpa] at h
      injection h with h
      subst h
      simp [List.indexOf_cons_self]
    · rw [List.find?_cons_of_neg _ hpa] at h
      have hra : a ≠ r := by
        intro e
        subst e
        exact hpa (List.find?_some h)
      have hxa : a ≠ x := by
        intro e
        subst e
        exact hpa hpx
      have hxas : x ∈ as := by
        rcases List.mem_cons.mp hx with h1 | h1
        · exact absurd h1.symm hxa
        · exact h1
      rw [List.indexOf_cons_ne as hra, List.indexOf_cons_ne as hxa]
      exact Nat.succ_le_succ (ih r h x hxas hpx)

/-! ### C2 — the license resolver -/

/-- C2: `get_license` is a total deterministic pure function: it always
returns a recognized label; on the empty list, or a list with no
recognized label, it returns the sentinel `"NONE"`; when a recognized
label is present it returns one of the input's labels, of
highest potency (least index in `possible_licenses`); unrecognized
labels are never returned. -/
theorem C2_license_resolver (l : List String) :
    get_license l ∈ possible_licenses
    ∧ (l = [] → get_license l = "NONE")
    ∧ ((∀ x ∈ l, x ∉ possible_licenses) → get_license l = "NONE")
    ∧ ((∃ x ∈ l, x ∈ possible_licenses) → get_license l ∈ l)
    ∧ (∀ x ∈ l, x ∈ possible_licenses →
        possible_licenses.indexOf (get_license l) ≤ possible_licenses.indexOf x) := by
  rcases hf : possible_licenses.find? (fun t => decide (t ∈ l)) with _ | r
  · have hnone : get_license l = "NONE" := by simp [get_license, hf]
    have hall : ∀ y ∈ possible_licenses, ¬ ((fun t => decide (t ∈ l)) y = true) :=
      List.find?_eq_none.mp hf
    refine ⟨?_, fun _ => hnone, fun _ => hnone, ?_, ?_⟩
    · rw [hnone]; decide
    · rintro ⟨x, hxl, hxp⟩
      exact absurd (decide_eq_true hxl) (hall x hxp)
    · intro x hxl hxp
      exact absurd (decide_eq_true hxl) (hall x hxp)
  · have hr : get_license l = r := by simp [get_license, hf]
    have hpr := List.find?_some hf
    have hrl : r ∈ l := of_decide_eq_true hpr
    have hrp : r ∈ possible_licenses := List.mem_of_find?_eq_some hf
    refine ⟨hr ▸ hrp, ?_, ?_, fun _ => hr ▸ hrl, ?_⟩
    · intro he
      subst he
      exact absurd hrl (List.not_mem_nil r)
    · intro hnone
      exact absurd hrp (hnone r hrl)
    · intro x hxl hxp
      rw [hr]
      exact find?_indexOf_le possible_licenses r hf x hxp (decide_eq_true hxl)

/-- Witness for C2 at concrete inputs: with an unrecognized and two
recognized labels present, the result is a recognized label from the
input, at least as potent as `"READER"`; with only an unrecognized
label, the sentinel is returned. -/
theorem C2_license_resolver_witness :
    get_license ["foo", "READER", "DATA_ANALYST"] ∈ possible_licenses
    ∧ get_license ["foo", "READER", "DATA_ANALYST"] ∈ ["foo", "READER", "DATA_ANALYST"]
    ∧ possible_licenses.indexOf (get_license ["foo", "READER", "DATA_ANALYST"])
        ≤ possible_licenses.indexOf "READER"
    ∧ get_license ["foo"] = "NONE" := by
  have h1 := C2_license_resolver ["foo", "READER", "DATA_ANALYST"]
  have h2 := C2_license_resolver ["foo"]
  exact ⟨h1.1, h1.2.2.2.1 ⟨"READER", by decide, by decide⟩,
    h1.2.2.2.2 "READER" (by decide) (by decide), h2.2.2.1 (by decide)⟩

/-! ### C3 — the user-identifier derivation -/

/-- C3 counterexample: `get_user_id` is not injective — the distinct
emails `"a@b"` and `"a_b"` derive the same identifier. -/
theorem C3_counterexample :
    get_user_id "a@b" = get_user_id "a_b" ∧ ("a@b" : String) ≠ "a_b" := by decide

lemma underscore_subst_inj :
    ∀ (l1 l2 : List Char), '_' ∉ l1 → '_' ∉ l2 →
      l1.map (fun c => if c = '@' then '_' else c) =
        l2.map (fun c => if c = '@' then '_' else c) →
      l1 = l2 := by
  intro l1
  induction l1 with
  | nil =>
    intro l2 _ _ h
    cases l2 with
    | nil => rfl
    | cons b t => simp at h
  | cons a t ih =>
    intro l2 h1 h2 h
    cases l2 with
    | nil => simp at h
    | cons b t2 =>
      simp only [List.map_cons, List.cons.injEq] at h
      obtain ⟨hab, ht⟩ := h
      have ha : a ≠ '_' := fun e => h1 (e ▸ List.mem_cons_self a t)
      have hb : b ≠ '_' := fun e => h2 (e ▸ List.mem_cons_self b t2)
      have h1t : '_' ∉ t := fun m => h1 (List.mem_cons_of_mem a m)
      have h2t : '_' ∉ t2 := fun m => h2 (List.mem_cons_of_mem b m)
      have heq : a = b := by
        by_cases e1 : a = '@'
        · by_cases e2 : b = '@'
          · rw [e1, e2]
          · simp only [e1, if_pos rfl, if_neg e2] at hab
            exact absurd hab.symm hb
        · by_cases e2 : b = '@'
          · simp only [e2, if_neg e1, if_pos rfl] at hab
            exact absurd hab ha
          · rwa [if_neg e1, if_neg e2] at hab
      rw [heq, ih t2 h1t h2t ht]

/-- C3 amended: `get_user_id` is deterministic but not injective on all
emails (see the counterexample); it is injective on emails that contain
no underscore character. -/
theorem C3_amended_injective_without_underscore (e1 e2 : String)
    (h1 : '_' ∉ e1.data) (h2 : '_' ∉ e2.data)
    (h : get_user_id e1 = get_user_id e2) : e1 = e2 := by
  apply String.ext
  exact underscore_subst_inj e1.data e2.data h1 h2 (congrArg String.data h)

/-- Witness for the amended C3 at a concrete underscore-free email. -/
theorem C3_amended_witness : ("x@y.z" : String) = "x@y.z" :=
  C3_amended_injective_without_underscore "x@y.z" "x@y.z" (by decide) (by decide) rfl

/-! ### C1 — the both-sides update condition -/

lemma decideUser_both (a : AadUser) (u : DssUser) (lg : List String)
    (hsrc : u.sourceType = "LOCAL_NO_AUTH") (hlic : get_license a.licenses ≠ "NONE") :
    decideUser (some a) (some u) lg =
      if list_diff (effective_groups a u lg) u.groups ≠ [] ∨
          get_license a.licenses ≠ u.userProfile then
        .update u.login (effective_groups a u lg) (get_license a.licenses)
      else .noop := by
  simp only [decideUser]
  rw [if_neg (by simp [hsrc]), if_neg hlic]

lemma decideUser_both_update_iff (a : AadUser) (u : DssUser) (lg : List String)
    (hsrc : u.sourceType = "LOCAL_NO_AUTH") (hlic : get_license a.licenses ≠ "NONE") :
    decideUser (some a) (some u) lg =
        .update u.login (effective_groups a u lg) (get_license a.licenses)
      ↔ (∃ g ∈ effective_groups a u lg, g ∉ u.groups)
        ∨ get_license a.licenses ≠ u.userProfile := by
  rw [decideUser_both a u lg hsrc hlic]
  by_cases hc : list_diff (effective_groups a u lg) u.groups ≠ [] ∨
      get_license a.licenses ≠ u.userProfile
  · rw [if_pos hc]
    refine ⟨fun _ => ?_, fun _ => rfl⟩
    rcases hc with h | h
    · exact Or.inl (list_diff_ne_nil_iff.mp h)
    · exact Or.inr h
  · rw [if_neg hc]
    push_neg at hc
    constructor
    · intro h
      exact absurd h (by simp)
    · rintro (⟨g, hg, hng⟩ | h)
      · exact absurd (list_diff_eq_nil_iff.mp hc.1 g hg) hng
      · exact absurd hc.2 h

lemma decideUser_both_noop_iff (a : AadUser) (u : DssUser) (lg : List String)
    (hsrc : u.sourceType = "LOCAL_NO_AUTH") (hlic : get_license a.licenses ≠ "NONE") :
    decideUser (some a) (some u) lg = .noop
      ↔ (∀ g ∈ effective_groups a u lg, g ∈ u.groups)
        ∧ get_license a.licenses = u.userProfile := by
  rw [decideUser_both a u lg hsrc hlic]
  by_cases hc : list_diff (effective_groups a u lg) u.groups ≠ [] ∨
      get_license a.licenses ≠ u.userProfile
  · rw [if_pos hc]
    constructor
    · intro h
      exact absurd h (by simp)
    · rintro ⟨hall, heq⟩
      rcases hc with h | h
      · obtain ⟨g, hg, hng⟩ := list_diff_ne_nil_iff.mp h
        exact absurd (hall g hg) hng
      · exact absurd heq h
  · rw [if_neg hc]
    push_neg at hc
    exact ⟨fun _ => ⟨list_diff_eq_nil_iff.mp hc.1, hc.2⟩, fun _ => rfl⟩

/-- Directory side of the C1 counterexample: user in the managed group
`eng` only. -/
def aadC1 : AadUser :=
  { login := "a_x.com", displayName := "A", email := "a@x.com",
    groups := ["eng"], licenses := ["READER"] }

/-- Local side of the C1 counterexample: additionally member of the
managed group `sales` that the directory no longer assigns. -/
def dssC1 : DssUser :=
  { login := "a_x.com", displayName := "A", email := "a@x.com",
    groups := ["eng", "sales"], sourceType := "LOCAL_NO_AUTH",
    userProfile := "READER" }

/-- C1 counterexample: with no local-only groups, the effective group
list `{eng}` differs as a set from the current local list
`{eng, sales}` (the user should lose `sales`), the license matches, the
user is owned — yet the decision is NoOp, not Update: the code only
tests the one-sided difference `list_diff(all_groups, groups_dss)`. -/
theorem C1_counterexample :
    decideUser (some aadC1) (some dssC1) [] = Decision.noop
    ∧ dssC1.sourceType = "LOCAL_NO_AUTH"
    ∧ get_license aadC1.licenses = dssC1.userProfile
    ∧ "sales" ∈ dssC1.groups
    ∧ "sales" ∉ effective_groups aadC1 dssC1 [] := by decide

/-- C1 amended: for a both-sides user with the owned source type and a
non-sentinel resolved license, the decision is Update — carrying the
effective group list and the resolved license — exactly when some
effective group is missing from the user's current local group list or
the resolved license differs from the current profile; a difference
consisting only of current local groups absent from the effective list
does not trigger an Update; otherwise the decision is NoOp; and mere
reordering of group memberships on either side never changes the
decision between Update and NoOp. -/
theorem C1_update_condition (a : AadUser) (u : DssUser) (lg : List String)
    (hsrc : u.sourceType = "LOCAL_NO_AUTH") (hlic : get_license a.licenses ≠ "NONE") :
    (decideUser (some a) (some u) lg =
        .update u.login (effective_groups a u lg) (get_license a.licenses)
      ↔ (∃ g ∈ effective_groups a u lg, g ∉ u.groups)
        ∨ get_license a.licenses ≠ u.userProfile)
    ∧ (decideUser (some a) (some u) lg = .noop
      ↔ (∀ g ∈ effective_groups a u lg, g ∈ u.groups)
        ∧ get_license a.licenses = u.userProfile)
    ∧ (∀ ga gu, ga.Perm a.groups → gu.Perm u.groups →
        (decideUser (some { a with groups := ga }) (some { u with groups := gu }) lg =
            .noop
          ↔ decideUser (some a) (some u) lg = .noop)) := by
  refine ⟨decideUser_both_update_iff a u lg hsrc hlic,
    decideUser_both_noop_iff a u lg hsrc hlic, ?_⟩
  intro ga gu hga hgu
  rw [decideUser_both_noop_iff { a with groups := ga } { u with groups := gu } lg hsrc hlic,
    decideUser_both_noop_iff a u lg hsrc hlic]
  constructor
  · rintro ⟨hall, heq⟩
    refine ⟨?_, heq⟩
    intro g hg
    rw [mem_effective_groups] at hg
    have hg2 : g ∈ effective_groups { a with groups := ga } { u with groups := gu } lg := by
      rw [mem_effective_groups]
      rcases hg with h1 | ⟨h1, h2⟩
      · exact Or.inl (hga.mem_iff.mpr h1)
      · exact Or.inr ⟨hgu.mem_iff.mpr h1, h2⟩
    exact hgu.mem_iff.mp (hall g hg2)
  · rintro ⟨hall, heq⟩
    refine ⟨?_, heq⟩
    intro g hg
    rw [mem_effective_groups] at hg
    have hg2 : g ∈ effective_groups a u lg := by
      rw [mem_effective_groups]
      rcases hg with h1 | ⟨h1, h2⟩
      · exact Or.inl (hga.mem_iff.mp h1)
      · exact Or.inr ⟨hgu.mem_iff.mp h1, h2⟩
    exact hgu.mem_iff.mpr (hall g hg2)

/-- Directory side of the C1 witness. -/
def aadW1 : AadUser :=
  { login := "a_x.com", displayName := "A", email := "a@x.com",
    groups := ["eng"], licenses := ["READER"] }

/-- Local side of the C1 witness: member of the local-only group
`contractors`. -/
def dssW1 : DssUser :=
  { login := "a_x.com", displayName := "A", email := "a@x.com",
    groups := ["contractors"], sourceType := "LOCAL_NO_AUTH",
    userProfile := "READER" }

/-- Witness for the amended C1: the directory group `eng` is missing
locally, so the decision is Update, carrying the effective group list
(which retains the local-only membership `contractors`). -/
theorem C1_update_condition_witness :
    decideUser (some aadW1) (some dssW1) ["contractors"] =
      Decision.update dssW1.login (effective_groups aadW1 dssW1 ["contractors"])
        (get_license aadW1.licenses) := by
  have h := C1_update_condition aadW1 dssW1 ["contractors"] (by decide) (by decide)
  exact h.1.mpr (Or.inl ⟨"eng", by decide, by decide⟩)

/-! ### C5 — the ownership guard -/

/-- C5: a user whose local account is not of the owned type
`LOCAL_NO_AUTH` is never mutated: local-only gives NoOp (no delete),
both-sides gives only a Warn, and in either case the account itself is
left unchanged. -/
theorem C5_ownership_guard (a : AadUser) (u : DssUser) (lg : List String)
    (h : u.sourceType ≠ "LOCAL_NO_AUTH") :
    decideUser none (some u) lg = Decision.noop
    ∧ decideUser (some a) (some u) lg = Decision.warn u.login
    ∧ applyToUser (decideUser none (some u) lg) (some u) = some u
    ∧ applyToUser (decideUser (some a) (some u) lg) (some u) = some u := by
  have h1 : decideUser none (some u) lg = Decision.noop := by
    simp only [decideUser]
    rw [if_neg h]
  have h2 : decideUser (some a) (some u) lg = Decision.warn u.login := by
    simp only [decideUser]
    rw [if_pos h]
  refine ⟨h1, h2, ?_, ?_⟩
  · rw [h1]
    rfl
  · rw [h2]
    rfl

/-- Directory side of the C5 witness. -/
def aadW5 : AadUser :=
  { login := "b_y.com", displayName := "B", email := "b@y.com",
    groups := ["eng"], licenses := ["READER"] }

/-- Local side of the C5 witness: a native `LOCAL` account. -/
def dssW5 : DssUser :=
  { login := "b_y.com", displayName := "B", email := "b@y.com",
    groups := ["eng"], sourceType := "LOCAL", userProfile := "READER" }

/-- Witness for C5 at a concrete foreign-owned account. -/
theorem C5_ownership_guard_witness :
    decideUser none (some dssW5) [] = Decision.noop
    ∧ decideUser (some aadW5) (some dssW5) [] = Decision.warn dssW5.login
    ∧ applyToUser (decideUser none (some dssW5) []) (some dssW5) = some dssW5
    ∧ applyToUser (decideUser (some aadW5) (some dssW5) []) (some dssW5) = some dssW5 :=
  C5_ownership_guard aadW5 dssW5 [] (by decide)

/-! ### C6 — idempotence of the reconciliation decision -/

/-- The account provisioned by a create decision (the non-simulate
branch of `user_create`, including the separate email step). -/
def createdUser (a : AadUser) : DssUser :=
  { login := a.login, displayName := a.displayName, email := a.email,
    groups := a.groups, sourceType := "LOCAL_NO_AUTH",
    userProfile := get_license a.licenses }

/-- The account resulting from an update decision (the non-simulate
branch of `user_update`). -/
def updatedUser (u : DssUser) (gs : List String) (lic : String) : DssUser :=
  { u with groups := gs, userProfile := lic }

/-- C6: reconciliation is idempotent per user: whatever the directory
row, the local account and the local-only groups, applying the decision
and deciding again over the unchanged directory state yields no
mutating decision (no create, update, or delete). -/
theorem C6_idempotent (a : Option AadUser) (u : Option DssUser) (lg : List String) :
    isMutation (decideUser a (applyToUser (decideUser a u lg) u) lg) = false := by
  rcases a with _ | a <;> rcases u with _ | u
  · rfl
  · by_cases h : u.sourceType = "LOCAL_NO_AUTH"
    · have h1 : decideUser none (some u) lg = Decision.delete u.login "Not found in AAD." := by
        simp only [decideUser]
        rw [if_pos h]
      rw [h1]
      rfl
    · have h1 : decideUser none (some u) lg = Decision.noop := by
        simp only [decideUser]
        rw [if_neg h]
      rw [h1, show applyToUser Decision.noop (some u) = some u from rfl, h1]
      rfl
  · by_cases h : get_license a.licenses = "NONE"
    · have h1 : decideUser (some a) none lg = Decision.skipCreate a.login := by
        simp only [decideUser]
        rw [if_pos h]
      rw [h1, show applyToUser (Decision.skipCreate a.login) none = none from rfl, h1]
      rfl
    · have h1 : decideUser (some a) none lg =
          Decision.create a.login a.displayName a.email a.groups (get_license a.licenses) := by
        simp only [decideUser]
        rw [if_neg h]
      rw [h1]
      rw [show applyToUser (Decision.create a.login a.displayName a.email a.groups
          (get_license a.licenses)) none = some (createdUser a) from rfl]
      have h3 : decideUser (some a) (some (createdUser a)) lg = Decision.noop := by
        rw [decideUser_both_noop_iff a (createdUser a) lg rfl h]
        constructor
        · intro g hg
          rw [mem_effective_groups] at hg
          rcases hg with h1 | ⟨h1, _⟩ <;> exact h1
        · rfl
      rw [h3]
      rfl
  · by_cases hs : u.sourceType = "LOCAL_NO_AUTH"
    · by_cases hl : get_license a.licenses = "NONE"
      · have h1 : decideUser (some a) (some u) lg = Decision.delete u.login "No license." := by
          simp only [decideUser]
          rw [if_neg (by simp [hs]), if_pos hl]
        rw [h1, show applyToUser (Decision.delete u.login "No license.") (some u) = none from rfl]
        have h2 : decideUser (some a) none lg = Decision.skipCreate a.login := by
          simp only [decideUser]
          rw [if_pos hl]
        rw [h2]
        rfl
      · rw [decideUser_both a u lg hs hl]
        by_cases hc : list_diff (effective_groups a u lg) u.groups ≠ [] ∨
            get_license a.licenses ≠ u.userProfile
        · rw [if_pos hc]
          rw [show applyToUser (Decision.update u.login (effective_groups a u lg)
              (get_license a.licenses)) (some u) =
              some (updatedUser u (effective_groups a u lg) (get_license a.licenses)) from rfl]
          have h3 : decideUser (some a)
              (some (updatedUser u (effective_groups a u lg) (get_license a.licenses))) lg =
              Decision.noop := by
            rw [decideUser_both_noop_iff a
              (updatedUser u (effective_groups a u lg) (get_license a.licenses)) lg hs hl]
            constructor
            · intro g hg
              rw [mem_effective_groups] at hg
              rcases hg with h1 | ⟨h1, _⟩
              · exact mem_effective_groups.mpr (Or.inl h1)
              · exact h1
            · rfl
          rw [h3]
          rfl
        · rw [if_neg hc]
          rw [show applyToUser Decision.noop (some u) = some u from rfl]
          rw [decideUser_both a u lg hs hl, if_neg hc]
          rfl
    · have h1 : decideUser (some a) (some u) lg = Decision.warn u.login := by
        simp only [decideUser]
        rw [if_pos hs]
      rw [h1, show applyToUser (Decision.warn u.login) (some u) = some u from rfl, h1]
      rfl

/-! ### C7 — simulate-mode purity of the mutators -/

/-- The action described by a mutator's log entry, the same for the
simulate wording and the non-simulate wording. -/
inductive SyncAction where
  | createSkip (user : String)
  | create (user : String) (groups : List String)
  | update (user : String) (groups : List String) (lic : String)
  | delete (user : String) (reason : String)
deriving DecidableEq, Repr

/-- Read the described action out of a log message. -/
def msgAction : Msg → Option SyncAction
  | .createSkippedNoLicense u => some (.createSkip u)
  | .createSimulated u gs => some (.create u gs)
  | .created u gs => some (.create u gs)
  | .updateSimulated u gs lic => some (.update u gs lic)
  | .updated u gs lic => some (.update u gs lic)
  | .deleteSimulated u r => some (.delete u r)
  | .deleted u r => some (.delete u r)
  | _ => none

/-- C7: with the simulate flag enabled, none of the three mutators
changes the roster; each appends exactly one log entry; and that entry
describes exactly the action the non-simulate call would apply (which
also appends exactly one entry). -/
theorem C7_simulate_purity (st : DssState) (log : List LogEntry)
    (user_id display_name email : String) (groups : List String)
    (lic reason : String) :
    ((user_create true st log user_id display_name email groups lic).1 = st
      ∧ ∃ e e2, (user_create true st log user_id display_name email groups lic).2 = log ++ [e]
          ∧ (user_create false st log user_id display_name email groups lic).2 = log ++ [e2]
          ∧ msgAction e.message = msgAction e2.message)
    ∧ ((user_update true st log user_id groups lic).1 = st
      ∧ ∃ e e2, (user_update true st log user_id groups lic).2 = log ++ [e]
          ∧ (user_update false st log user_id groups lic).2 = log ++ [e2]
          ∧ msgAction e.message = msgAction e2.message)
    ∧ ((user_delete true st log user_id reason).1 = st
      ∧ ∃ e e2, (user_delete true st log user_id reason).2 = log ++ [e]
          ∧ (user_delete false st log user_id reason).2 = log ++ [e2]
          ∧ msgAction e.message = msgAction e2.message) := by
  refine ⟨⟨?_, ?_⟩, ⟨rfl, ?_⟩, ⟨rfl, ?_⟩⟩
  · by_cases h : lic = "NONE" <;> simp [user_create, h, add_log]
  · by_cases h : lic = "NONE"
    · exact ⟨⟨"INFO", .createSkippedNoLicense user_id⟩,
        ⟨"INFO", .createSkippedNoLicense user_id⟩,
        by simp [user_create, h, add_log], by simp [user_create, h, add_log], rfl⟩
    · exact ⟨⟨"INFO", .createSimulated user_id groups⟩,
        ⟨"INFO", .created user_id groups⟩,
        by simp [user_create, h, add_log], by simp [user_create, h, add_log], rfl⟩
  · exact ⟨⟨"INFO", .updateSimulated user_id groups lic⟩,
      ⟨"INFO", .updated user_id groups lic⟩, rfl, rfl, rfl⟩
  · exact ⟨⟨"INFO", .deleteSimulated user_id reason⟩,
      ⟨"INFO", .deleted user_id reason⟩, rfl, rfl, rfl⟩

/-! ### C10 — the frame property of user_update -/

/-- C10: in non-simulate mode, `user_update` overwrites only the
`groups` and `userProfile` fields of the targeted account; every other
field (login, display name, email, source type) is unchanged, and
accounts with a different login are untouched entirely. -/
theorem C10_update_frame (st : DssState) (log : List LogEntry) (user_id : String)
    (groups : List String) (lic : String) (u0 : DssUser) (h : u0 ∈ st.users) :
    ∃ u, u ∈ ((user_update false st log user_id groups lic).1).users
      ∧ u.login = u0.login ∧ u.displayName = u0.displayName ∧ u.email = u0.email
      ∧ u.sourceType = u0.sourceType
      ∧ (u0.login = user_id → u.groups = groups ∧ u.userProfile = lic)
      ∧ (u0.login ≠ user_id → u = u0) := by
  refine ⟨if u0.login = user_id then { u0 with groups := groups, userProfile := lic }
      else u0,
    List.mem_map_of_mem _ h, ?_, ?_, ?_, ?_, ?_, ?_⟩
  all_goals by_cases hc : u0.login = user_id <;> simp [hc]

/-- The account of the C10 witness. -/
def dssW10 : DssUser :=
  { login := "a_x.com", displayName := "A", email := "a@x.com",
    groups := ["eng"], sourceType := "LOCAL_NO_AUTH", userProfile := "READER" }

/-- The one-account roster of the C10 witness. -/
def stW10 : DssState := ⟨[dssW10]⟩

/-- Witness for C10 at a concrete roster and update. -/
theorem C10_update_frame_witness :
    ∃ u, u ∈ ((user_update false stW10 [] "a_x.com" ["eng", "sales"] "DATA_ANALYST").1).users
      ∧ u.login = dssW10.login ∧ u.displayName = dssW10.displayName ∧ u.email = dssW10.email
      ∧ u.sourceType = dssW10.sourceType
      ∧ (dssW10.login = "a_x.com" → u.groups = ["eng", "sales"] ∧ u.userProfile = "DATA_ANALYST")
      ∧ (dssW10.login ≠ "a_x.com" → u = dssW10) :=
  C10_update_frame stW10 [] "a_x.com" ["eng", "sales"] "DATA_ANALYST" dssW10 (by decide)

/-! ### C4 — per-group directory failures -/

/-- Directory oracle for C4: the lookup of `Eng-AAD` fails with an HTTP
error; any other group resolves and lists one member. -/
def apiC4 : GraphApi :=
  { groupLookup := fun name =>
      if name = "Eng-AAD" then Except.error "HTTPError" else Except.ok ["gid2"],
    memberList := fun _ => Except.ok [{ displayName := "B", email := "b@y.com" }] }

/-- The failing mapping row of C4. -/
def rowC4a : GroupRow := { dss_name := "eng", aad_name := "Eng-AAD", license := "READER" }

/-- The succeeding mapping row of C4. -/
def rowC4b : GroupRow := { dss_name := "sales", aad_name := "Sales-AAD", license := "READER" }

/-- Run inputs for C4 where the failing group is the only mapping row. -/
def envC4 : RunEnv :=
  { groups_df := [rowC4a], dss_users := [], dss_groups := ["eng"],
    api := apiC4, auth := Except.ok (), flag_simulate := false }

/-- C4: within phase 2 the property holds — the failing group's lookup
logs one WARNING, contributes no members, and the loop continues with
the remaining groups (here `sales` still contributes its member).  But
when the failing group is the only mapping row, no member row exists at
all and phase 3 raises `KeyError('login')` on the empty member frame:
the per-group failure then aborts the rest of the run (the roster is
never reconciled), contradicting the claim's last clause. -/
theorem C4_group_failure : 
    phase2 apiC4 [rowC4a, rowC4b] ([], []) =
      ([{ displayName := "B", email := "b@y.com", groups := "sales", login := "b_y.com" }],
       [{ severity := "WARNING", message := Msg.graphGroupError "Eng-AAD" "HTTPError" }])
    ∧ runPhases envC4 =
      Except.error ("KeyError: login", ⟨[]⟩,
        [{ severity := "WARNING", message := Msg.graphGroupError "Eng-AAD" "HTTPError" }]) :=
  ⟨rfl, rfl⟩

/-! ### C8 — the top-level exception handler -/

/-- C8: whenever the phases fail with message `e` and partial log
`plog`, `run` still returns the result table: it is built from the log
with one ERROR entry carrying `e` appended, and that entry is the last
row of the returned table. -/
theorem C8_toplevel_handler (env : RunEnv) (e : String) (st : DssState)
    (plog : List LogEntry) (h : runPhases env = .error (e, st, plog)) :
    run env = create_resulttable (plog ++ [⟨"ERROR", Msg.runError e⟩])
    ∧ (run env).getLast? = some ("ERROR", Msg.runError e) := by
  have hrun : run env = create_resulttable (plog ++ [⟨"ERROR", Msg.runError e⟩]) := by
    unfold run
    rw [h]
    rfl
  refine ⟨hrun, ?_⟩
  rw [hrun]
  simp [create_resulttable, List.getLast?_concat]

/-- Directory oracle that is never reached in the C8 witness. -/
def apiW8 : GraphApi :=
  { groupLookup := fun _ => Except.ok [], memberList := fun _ => Except.ok [] }

/-- Run inputs for the C8 witness: the groups dataset carries the
invalid license value `GOLD`, so phase 1 validation raises. -/
def envW8 : RunEnv :=
  { groups_df := [{ dss_name := "eng", aad_name := "Eng-AAD", license := "GOLD" }],
    dss_users := [], dss_groups := ["eng"],
    api := apiW8, auth := Except.ok (), flag_simulate := false }

/-- Witness for C8 at a concrete failing run. -/
theorem C8_toplevel_handler_witness :
    run envW8 = create_resulttable
      ([] ++ [⟨"ERROR", Msg.runError "Invalid license types were found in the groups configuration"⟩])
    ∧ (run envW8).getLast? =
      some ("ERROR", Msg.runError "Invalid license types were found in the groups configuration") :=
  C8_toplevel_handler envW8 "Invalid license types were found in the groups configuration"
    ⟨[]⟩ [] rfl

/-! ### C9 — end-to-end scenario C -/

/-- Directory oracle for scenario C: the renamed group `Eng-AAD` has no
search match, so no group contributes members. -/
def apiC9 : GraphApi :=
  { groupLookup := fun _ => Except.ok [], memberList := fun _ => Except.ok [] }

/-- The persisting owned local user of scenario C. -/
def dssUserC9 : DssUser :=
  { login := "a_x.com", displayName := "A", email := "a@x.com",
    groups := ["eng"], sourceType := "LOCAL_NO_AUTH", userProfile := "READER" }

/-- Run inputs for scenario C. -/
def envC9 : RunEnv :=
  { groups_df := [{ dss_name := "eng", aad_name := "Eng-AAD", license := "READER" }],
    dss_users := [dssUserC9], dss_groups := ["eng"],
    api := apiC9, auth := Except.ok (), flag_simulate := false }

/-- C9: in scenario C the code does not emit the expected Delete with
reason "no license": phase 2 logs the missing-group WARNING, phase 3
then raises `KeyError('login')` on the empty member frame, the run
aborts with an ERROR row, the roster still contains the user, and no
log entry describes any delete action. -/
theorem C9_scenario_aborts :
    runPhases envC9 =
      Except.error ("KeyError: login", ⟨[dssUserC9]⟩,
        [{ severity := "WARNING", message := Msg.noGraphReturn "Eng-AAD" }])
    ∧ (runFinalState envC9).users = [dssUserC9]
    ∧ ∀ entry ∈ run envC9, msgAction entry.2 ≠ some (SyncAction.delete "a_x.com" "No license.") :=
  ⟨rfl, rfl, by decide⟩
